import Mathlib

/-!
Shallow embedding of the Köppen–Geiger climate classifier
(`koppen_classification/classifier.py`, class `KoppenClassification`).

Monthly precipitation and temperature values are modelled as rationals
(the Python code works on numpy floating-point arrays; the decision
logic is exact real arithmetic, which `ℚ` captures, with the literal
`0.7` read as `7/10`).  A record is a pair of 12-element lists plus the
hemisphere flag `south`.  The constructor's length check (which raises
`ValueError` in Python) is modelled by `koppenClassify` returning
`Except.error "InvalidInput"`.
-/

namespace Koppen

/-- Sum of a list of rationals (numpy `arr.sum()`). -/
def listSum (l : List ℚ) : ℚ := l.sum

/-- Minimum of a nonempty list (numpy `arr.min()`); the `[]` case is
never reached on validated 12-month records. -/
def listMin : List ℚ → ℚ
  | [] => 0
  | x :: xs => xs.foldl min x

/-- Maximum of a nonempty list (numpy `arr.max()`). -/
def listMax : List ℚ → ℚ
  | [] => 0
  | x :: xs => xs.foldl max x

/-- Mean of a list (numpy `arr.mean()` = sum / length). -/
def mean (l : List ℚ) : ℚ := listSum l / (l.length : ℚ)

/-- Number of months with temperature strictly above 10 °C:
`(temp > 10).astype(int).sum()`, the sum of the elementwise indicator. -/
def monthsAbove10 : List ℚ → ℕ
  | [] => 0
  | x :: xs => (if 10 < x then 1 else 0) + monthsAbove10 xs

/-- Fancy indexing `arr[idx]`: pick the entries at the given indices. -/
def select (l : List ℚ) (idx : List ℕ) : List ℚ := idx.map (fun i => l.getD i 0)

/-- The first index list of `mon_sw`: April–September, indices 3–8. -/
def monSW0 : List ℕ := [3, 4, 5, 6, 7, 8]

/-- The second index list of `mon_sw`: October–March, indices 0–2 and 9–11. -/
def monSW1 : List ℕ := [0, 1, 2, 9, 10, 11]

/-- `mon_ind['summer']`: indices 3–8 in the northern hemisphere,
swapped to 0–2, 9–11 in the southern hemisphere. -/
def summerIdx (south : Bool) : List ℕ := if south then monSW1 else monSW0

/-- `mon_ind['winter']`: the other index list. -/
def winterIdx (south : Bool) : List ℕ := if south then monSW0 else monSW1

/-- `calculate_precip_threshold`, generalised over the summer/winter
index lists exactly as the Python method is over `self.mon_ind`. -/
def thresholdIdx (precip temp : List ℚ) (sIdx wIdx : List ℕ) : ℚ :=
  if listSum (select precip wIdx) > 7/10 * listSum precip then
    20 * mean temp
  else if listSum (select precip sIdx) > 7/10 * listSum precip then
    20 * mean temp + 280
  else
    20 * mean temp + 140

/-- `KoppenClassification.calculate_precip_threshold`. -/
def calculate_precip_threshold (precip temp : List ℚ) (south : Bool) : ℚ :=
  thresholdIdx precip temp (summerIdx south) (winterIdx south)

/-- The dry-season letter computed verbatim by both the Group C and the
Group D branches of `classify`. -/
def dryIdx (precip : List ℚ) (sIdx wIdx : List ℕ) : String :=
  if listMin (select precip sIdx) < 40 ∧
      listMin (select precip sIdx) < listMax (select precip wIdx) / 3 then "s"
  else if listMin (select precip wIdx) < listMax (select precip sIdx) / 10 then "w"
  else "f"

/-- `KoppenClassification.classify`, generalised over the summer/winter
index lists exactly as the Python method is over `self.mon_ind`. -/
def classifyIdx (precip temp : List ℚ) (sIdx wIdx : List ℕ) : String :=
  if listSum precip < thresholdIdx precip temp sIdx wIdx then
    "B" ++ (if listSum precip < thresholdIdx precip temp sIdx wIdx / 2 then "W" else "S")
        ++ (if mean temp ≥ 18 then "h" else "k")
  else if listMin temp ≥ 18 then
    "A" ++ (if listMin precip ≥ 60 then "f"
            else if listMin precip ≥ 100 - listSum precip / 25 then "m" else "w")
  else if listMax temp > 10 ∧ 0 < listMin temp ∧ listMin temp < 18 then
    "C" ++ dryIdx precip sIdx wIdx
        ++ (if listMax temp ≥ 22 then "a"
            else if monthsAbove10 temp ≥ 4 then "b" else "c")
  else if listMax temp > 10 ∧ listMin temp ≤ 0 then
    "D" ++ dryIdx precip sIdx wIdx
        ++ (if listMax temp ≥ 22 then "a"
            else if monthsAbove10 temp ≥ 4 then "b"
            else if listMin temp < -38 then "d" else "c")
  else if listMax temp ≤ 10 then
    "E" ++ (if listMax temp > 0 then "T" else "F")
  else
    "Unknown"

/-- `KoppenClassification.classify` on a validated record. -/
def classify (precip temp : List ℚ) (south : Bool) : String :=
  classifyIdx precip temp (summerIdx south) (winterIdx south)

/-- The public entry point: the constructor's length check
(`raise ValueError` when either array is not 12 long, modelled as
`Except.error "InvalidInput"`) followed by `classify`. -/
def koppenClassify (precip temp : List ℚ) (south : Bool) : Except String String :=
  if precip.length ≠ 12 ∨ temp.length ≠ 12 then
    Except.error "InvalidInput"
  else
    Except.ok (classify precip temp south)

/-- The threshold rule as §4.2 of the specification words it: a
first-match-wins three-branch function of the winter precipitation sum,
summer precipitation sum, annual total and mean temperature. -/
def thresholdSpec (winterPrecip summerPrecip precipSum tempMean : ℚ) : ℚ :=
  if winterPrecip > 7/10 * precipSum then 20 * tempMean
  else if summerPrecip > 7/10 * precipSum then 20 * tempMean + 280
  else 20 * tempMean + 140

/-- Stepwise evaluation of `listMin` on literal lists. -/
lemma listMin_pair (x y : ℚ) (l : List ℚ) : listMin (x :: y :: l) = listMin (min x y :: l) := rfl

/-- Base case for evaluation of `listMin`. -/
lemma listMin_single (x : ℚ) : listMin [x] = x := rfl

/-- Stepwise evaluation of `listMax` on literal lists. -/
lemma listMax_pair (x y : ℚ) (l : List ℚ) : listMax (x :: y :: l) = listMax (max x y :: l) := rfl

/-- Base case for evaluation of `listMax`. -/
lemma listMax_single (x : ℚ) : listMax [x] = x := rfl

/-- A list of length 12 is a 12-element literal. -/
lemma exists_twelve (p : List ℚ) (hp : p.length = 12) :
    ∃ a b c d e f g q i j k m, p = [a, b, c, d, e, f, g, q, i, j, k, m] := by
  rcases p with _ | ⟨a, p⟩; · simp at hp
  rcases p with _ | ⟨b, p⟩; · simp at hp
  rcases p with _ | ⟨c, p⟩; · simp at hp
  rcases p with _ | ⟨d, p⟩; · simp at hp
  rcases p with _ | ⟨e, p⟩; · simp at hp
  rcases p with _ | ⟨f, p⟩; · simp at hp
  rcases p with _ | ⟨g, p⟩; · simp at hp
  rcases p with _ | ⟨q, p⟩; · simp at hp
  rcases p with _ | ⟨i, p⟩; · simp at hp
  rcases p with _ | ⟨j, p⟩; · simp at hp
  rcases p with _ | ⟨k, p⟩; · simp at hp
  rcases p with _ | ⟨m, p⟩; · simp at hp
  rcases p with _ | ⟨x, p⟩
  · exact ⟨a, b, c, d, e, f, g, q, i, j, k, m, rfl⟩
  · simp at hp

/-- C1: a record whose derived statistics satisfy both the Group B
condition (`precipSum < threshold`) and the Group A condition
(`tempMin ≥ 18`) is classified with a code starting with "B" and never
with "A": aridity takes priority over the tropical group. -/
theorem priorityBOverA (p t : List ℚ) (s : Bool)
    (hp : p.length = 12) (ht : t.length = 12)
    (hB : listSum p < calculate_precip_threshold p t s) (hA : listMin t ≥ 18) :
    (∃ rest, classify p t s = "B" ++ rest) ∧ ∀ rest, classify p t s ≠ "A" ++ rest := by
  unfold classify classifyIdx
  unfold calculate_precip_threshold at hB
  rw [if_pos hB]
  constructor
  · exact ⟨_, String.append_assoc _ _ _⟩
  · intro rest hEq
    have hd := congrArg String.data hEq
    simp [String.data_append] at hd

/-- Witness for C1: an arid-and-tropical record (uniform 10 mm, 20 °C,
northern hemisphere) gets a "B" code and not an "A" code. -/
theorem priorityBOverA_witness :
    (∃ rest, classify (List.replicate 12 10) (List.replicate 12 20) false = "B" ++ rest) ∧
    ∀ rest, classify (List.replicate 12 10) (List.replicate 12 20) false ≠ "A" ++ rest := by
  refine priorityBOverA _ _ false (by simp) (by simp) ?_ ?_
  · norm_num [calculate_precip_threshold, thresholdIdx, select, summerIdx, winterIdx,
      monSW0, monSW1, listSum, mean, List.replicate]
  · norm_num [List.replicate, listMin_pair, listMin_single, min_def]

/-- C2 counterexample: with `temp = [-10]*12` the code does not return
"EF" for every precipitation input.  A summer-concentrated input with
annual sum 60 mm falls below the threshold `20*(-10)+280 = 80` and is
classified arid ("BSk"), so the claimed universal "EF" fails. -/
theorem scenario5Counterexample :
    classify [0, 0, 0, 10, 10, 10, 10, 10, 10, 0, 0, 0]
      (List.replicate 12 (-10)) false = "BSk" ∧ ("BSk" : String) ≠ "EF" := by
  constructor
  · have hps : select [(0:ℚ), 0, 0, 10, 10, 10, 10, 10, 10, 0, 0, 0] (summerIdx false)
        = [10, 10, 10, 10, 10, 10] := by
      norm_num [select, summerIdx, monSW0]
    have hpw : select [(0:ℚ), 0, 0, 10, 10, 10, 10, 10, 10, 0, 0, 0] (winterIdx false)
        = [0, 0, 0, 0, 0, 0] := by
      norm_num [select, winterIdx, monSW1]
    have hsum : listSum [(0:ℚ), 0, 0, 10, 10, 10, 10, 10, 10, 0, 0, 0] = 60 := by
      norm_num [listSum]
    have hmean : mean (List.replicate 12 (-10 : ℚ)) = -10 := by
      norm_num [mean, listSum, List.replicate]
    have hthr : thresholdIdx [(0:ℚ), 0, 0, 10, 10, 10, 10, 10, 10, 0, 0, 0]
        (List.replicate 12 (-10)) (summerIdx false) (winterIdx false) = 80 := by
      rw [thresholdIdx, hps, hpw, hsum, hmean]
      rw [if_neg (by norm_num [listSum]), if_pos (by norm_num [listSum])]
      norm_num
    rw [classify, classifyIdx, hthr, hsum, hmean,
      if_pos (by norm_num), if_neg (by norm_num), if_neg (by norm_num)]
    rfl
  · decide

/-- C2 as amended: with `temp = [-10]*12`, any hemisphere and any
12-month precipitation input whose annual sum is not below the computed
aridity threshold (so the Group B branch does not fire), `classify`
returns "EF". -/
theorem polarUniformMinus10 (p : List ℚ) (s : Bool) (hp : p.length = 12)
    (h : ¬ listSum p < calculate_precip_threshold p (List.replicate 12 (-10)) s) :
    classify p (List.replicate 12 (-10)) s = "EF" := by
  have htmin : listMin (List.replicate 12 (-10 : ℚ)) = -10 := by
    norm_num [List.replicate, listMin_pair, listMin_single, min_def]
  have htmax : listMax (List.replicate 12 (-10 : ℚ)) = -10 := by
    norm_num [List.replicate, listMax_pair, listMax_single, max_def]
  unfold classify classifyIdx
  unfold calculate_precip_threshold at h
  rw [if_neg h, htmin, htmax, if_neg (by norm_num), if_neg (by norm_num),
    if_neg (by norm_num), if_pos (by norm_num), if_neg (by norm_num)]
  rfl

/-- Witness for the amended C2: uniform 250 mm precipitation with
`temp = [-10]*12` is far from arid and classifies as "EF". -/
theorem polarUniformMinus10_witness :
    classify (List.replicate 12 250) (List.replicate 12 (-10)) false = "EF" := by
  refine polarUniformMinus10 _ false (by simp) ?_
  norm_num [calculate_precip_threshold, thresholdIdx, select, summerIdx, winterIdx,
    monSW0, monSW1, listSum, mean, List.replicate]

/-- C3: on every 12-month record the group conditions B, A, C, D, E are
exhaustive, so `classify` never returns the fallback code "Unknown". -/
theorem noUnknown (p t : List ℚ) (s : Bool)
    (hp : p.length = 12) (ht : t.length = 12) :
    classify p t s ≠ "Unknown" := by
  unfold classify classifyIdx dryIdx
  split_ifs
  all_goals try decide
  rename_i hB hA hC hD hE
  push_neg at hA hC hD hE
  have h1 : 10 < listMax t := hE
  have h2 : 0 < listMin t := hD h1
  have h3 : 18 ≤ listMin t := hC h1 h2
  linarith

/-- Witness for C3 at a concrete record. -/
theorem noUnknown_witness :
    classify (List.replicate 12 5) (List.replicate 12 5) false ≠ "Unknown" :=
  noUnknown _ _ false (by simp) (by simp)

/-- C4: the computed aridity threshold equals the specification's
first-match-wins three-branch rule applied to the winter precipitation
sum, summer precipitation sum, annual total and mean temperature. -/
theorem thresholdFirstMatch (p t : List ℚ) (s : Bool) :
    calculate_precip_threshold p t s =
      thresholdSpec (listSum (select p (winterIdx s))) (listSum (select p (summerIdx s)))
        (listSum p) (mean t) := rfl

/-- C5: with a precipitation or temperature list whose length is not 12
the entry point fails with `InvalidInput` and never returns a code;
with both lengths exactly 12 no error is raised and the classification
code is returned. -/
theorem invalidInputIff (p t : List ℚ) (s : Bool) :
    (p.length ≠ 12 ∨ t.length ≠ 12 →
      koppenClassify p t s = Except.error "InvalidInput") ∧
    (p.length = 12 → t.length = 12 →
      koppenClassify p t s = Except.ok (classify p t s)) := by
  constructor
  · intro h
    unfold koppenClassify
    rw [if_pos h]
  · intro h1 h2
    unfold koppenClassify
    rw [if_neg (by push_neg; exact ⟨h1, h2⟩)]

/-- Witness for C5: an 11-month precipitation list is rejected, and a
12/12 record is classified without error. -/
theorem invalidInputIff_witness :
    koppenClassify (List.replicate 11 0) (List.replicate 12 0) false
      = Except.error "InvalidInput" ∧
    koppenClassify (List.replicate 12 0) (List.replicate 12 0) false
      = Except.ok (classify (List.replicate 12 0) (List.replicate 12 0) false) :=
  ⟨(invalidInputIff _ _ false).1 (Or.inl (by simp)),
   (invalidInputIff _ _ false).2 (by simp) (by simp)⟩

/-- C6: with `south = false` the summer index set is {3,…,8} and the
winter index set is {9,10,11,0,1,2}; with `south = true` the two lists
are exchanged, so classifying the original arrays with the flag set
equals running the decision tree with the season roles swapped. -/
theorem hemisphereSwap :
    (summerIdx false).toFinset = ({3, 4, 5, 6, 7, 8} : Finset ℕ) ∧
    (winterIdx false).toFinset = ({9, 10, 11, 0, 1, 2} : Finset ℕ) ∧
    summerIdx true = winterIdx false ∧
    winterIdx true = summerIdx false ∧
    ∀ (p t : List ℚ), classify p t true = classifyIdx p t (winterIdx false) (summerIdx false) :=
  ⟨by decide, by decide, rfl, rfl, fun p t => rfl⟩

/-- C7: a record that reaches Group C (not arid, warmest month above
10 °C, coldest month strictly between 0 °C and 18 °C) is coded "C"
followed by the dry-season letter and the summer-heat letter given by
the stated formulas; the scenario-3 record yields "Cfa". -/
theorem groupCLetters :
    (∀ (p t : List ℚ) (s : Bool),
      ¬ listSum p < calculate_precip_threshold p t s →
      10 < listMax t → 0 < listMin t → listMin t < 18 →
      classify p t s =
        "C" ++ (if listMin (select p (summerIdx s)) < 40 ∧
                  listMin (select p (summerIdx s)) < listMax (select p (winterIdx s)) / 3
                then "s"
                else if listMin (select p (winterIdx s)) < listMax (select p (summerIdx s)) / 10
                then "w"
                else "f")
          ++ (if listMax t ≥ 22 then "a"
              else if monthsAbove10 t ≥ 4 then "b" else "c")) ∧
    classify [30, 40, 20, 60, 80, 100, 150, 140, 90, 70, 50, 40]
      [10, 12, 15, 18, 20, 25, 30, 28, 22, 15, 12, 8] false = "Cfa" := by
  constructor
  · intro p t s h1 h2 h3 h4
    unfold classify classifyIdx dryIdx
    unfold calculate_precip_threshold at h1
    rw [if_neg h1, if_neg (not_le.mpr h4), if_pos ⟨h2, h3, h4⟩]
  · have hps : select [(30:ℚ), 40, 20, 60, 80, 100, 150, 140, 90, 70, 50, 40] (summerIdx false)
        = [60, 80, 100, 150, 140, 90] := by
      norm_num [select, summerIdx, monSW0]
    have hpw : select [(30:ℚ), 40, 20, 60, 80, 100, 150, 140, 90, 70, 50, 40] (winterIdx false)
        = [30, 40, 20, 70, 50, 40] := by
      norm_num [select, winterIdx, monSW1]
    have hsum : listSum [(30:ℚ), 40, 20, 60, 80, 100, 150, 140, 90, 70, 50, 40] = 870 := by
      norm_num [listSum]
    have hsw : listSum [(60:ℚ), 80, 100, 150, 140, 90] = 620 := by norm_num [listSum]
    have hww : listSum [(30:ℚ), 40, 20, 70, 50, 40] = 250 := by norm_num [listSum]
    have hmean : mean [(10:ℚ), 12, 15, 18, 20, 25, 30, 28, 22, 15, 12, 8] = 215/12 := by
      norm_num [mean, listSum]
    have hthr : thresholdIdx [(30:ℚ), 40, 20, 60, 80, 100, 150, 140, 90, 70, 50, 40]
        [10, 12, 15, 18, 20, 25, 30, 28, 22, 15, 12, 8] (summerIdx false) (winterIdx false)
        = 1915/3 := by
      rw [thresholdIdx, hps, hpw, hsum, hsw, hww, hmean,
        if_neg (by norm_num), if_pos (by norm_num)]
      norm_num
    have hsmin : listMin [(60:ℚ), 80, 100, 150, 140, 90] = 60 := by
      norm_num [listMin_pair, listMin_single, min_def]
    have hsmax : listMax [(60:ℚ), 80, 100, 150, 140, 90] = 150 := by
      norm_num [listMax_pair, listMax_single, max_def]
    have hwmin : listMin [(30:ℚ), 40, 20, 70, 50, 40] = 20 := by
      norm_num [listMin_pair, listMin_single, min_def]
    have hwmax : listMax [(30:ℚ), 40, 20, 70, 50, 40] = 70 := by
      norm_num [listMax_pair, listMax_single, max_def]
    have hdry : dryIdx [(30:ℚ), 40, 20, 60, 80, 100, 150, 140, 90, 70, 50, 40]
        (summerIdx false) (winterIdx false) = "f" := by
      rw [dryIdx, hps, hpw, hsmin, hsmax, hwmin, hwmax,
        if_neg (by norm_num), if_neg (by norm_num)]
    have htmin : listMin [(10:ℚ), 12, 15, 18, 20, 25, 30, 28, 22, 15, 12, 8] = 8 := by
      norm_num [listMin_pair, listMin_single, min_def]
    have htmax : listMax [(10:ℚ), 12, 15, 18, 20, 25, 30, 28, 22, 15, 12, 8] = 30 := by
      norm_num [listMax_pair, listMax_single, max_def]
    rw [classify, classifyIdx, hthr, hdry, hsum, htmin, htmax,
      if_neg (by norm_num), if_neg (by norm_num), if_pos (by norm_num), if_pos (by norm_num)]
    rfl

/-- Witness for C7: a uniform temperate record (100 mm, 15 °C) reaches
Group C and the formulas give "Cfb". -/
theorem groupCLetters_witness :
    classify (List.replicate 12 100) (List.replicate 12 15) false = "Cfb" := by
  have h := groupCLetters.1 (List.replicate 12 100) (List.replicate 12 15) false
    (by norm_num [calculate_precip_threshold, thresholdIdx, select, summerIdx, winterIdx,
      monSW0, monSW1, listSum, mean, List.replicate])
    (by norm_num [List.replicate, listMax_pair, listMax_single, max_def])
    (by norm_num [List.replicate, listMin_pair, listMin_single, min_def])
    (by norm_num [List.replicate, listMin_pair, listMin_single, min_def])
  rw [h]
  have hsel : select (List.replicate 12 (100:ℚ)) (summerIdx false)
      = [100, 100, 100, 100, 100, 100] := by
    norm_num [select, summerIdx, monSW0, List.replicate]
  have hselw : select (List.replicate 12 (100:ℚ)) (winterIdx false)
      = [100, 100, 100, 100, 100, 100] := by
    norm_num [select, winterIdx, monSW1, List.replicate]
  have hcount : monthsAbove10 (List.replicate 12 (15:ℚ)) = 12 := by
    norm_num [List.replicate, monthsAbove10]
  rw [hsel, hselw, hcount]
  rw [if_neg (by norm_num [listMin_pair, listMin_single, min_def]),
    if_neg (by norm_num [listMin_pair, listMin_single, listMax_pair, listMax_single,
      min_def, max_def]),
    if_neg (by norm_num [List.replicate, listMax_pair, listMax_single, max_def]),
    if_pos (by norm_num)]
  rfl

/-- C8: an arid record (`precipSum < threshold`) is coded with exactly
three characters: "B", then "W" when `precipSum < threshold/2` else
"S", then "h" when `tempMean ≥ 18` else "k"; the scenario-2 record
(uniform 5 mm, 5 °C, north) yields "BWk". -/
theorem groupBLetters :
    (∀ (p t : List ℚ) (s : Bool),
      listSum p < calculate_precip_threshold p t s →
      classify p t s =
        "B" ++ (if listSum p < calculate_precip_threshold p t s / 2 then "W" else "S")
            ++ (if mean t ≥ 18 then "h" else "k") ∧
      (classify p t s).length = 3) ∧
    classify (List.replicate 12 5) (List.replicate 12 5) false = "BWk" := by
  constructor
  · intro p t s h
    unfold classify classifyIdx
    unfold calculate_precip_threshold at h ⊢
    rw [if_pos h]
    refine ⟨rfl, ?_⟩
    split_ifs <;> rfl
  · have hsel : select (List.replicate 12 (5:ℚ)) (summerIdx false) = [5, 5, 5, 5, 5, 5] := by
      norm_num [select, summerIdx, monSW0, List.replicate]
    have hselw : select (List.replicate 12 (5:ℚ)) (winterIdx false) = [5, 5, 5, 5, 5, 5] := by
      norm_num [select, winterIdx, monSW1, List.replicate]
    have hsum : listSum (List.replicate 12 (5:ℚ)) = 60 := by
      norm_num [listSum, List.replicate]
    have hmean : mean (List.replicate 12 (5:ℚ)) = 5 := by
      norm_num [mean, listSum, List.replicate]
    have hthr : thresholdIdx (List.replicate 12 5) (List.replicate 12 5)
        (summerIdx false) (winterIdx false) = 240 := by
      rw [thresholdIdx, hsel, hselw, hsum, hmean,
        if_neg (by norm_num [listSum]), if_neg (by norm_num [listSum])]
      norm_num
    rw [classify, classifyIdx, hthr, hsum, hmean,
      if_pos (by norm_num), if_pos (by norm_num), if_neg (by norm_num)]
    rfl

/-- Witness for C8: a different arid record (uniform 2 mm, 20 °C),
classified through the Group B formulas, gives "BWh". -/
theorem groupBLetters_witness :
    classify (List.replicate 12 2) (List.replicate 12 20) false = "BWh" := by
  have h := (groupBLetters.1 (List.replicate 12 2) (List.replicate 12 20) false
    (by norm_num [calculate_precip_threshold, thresholdIdx, select, summerIdx, winterIdx,
      monSW0, monSW1, listSum, mean, List.replicate])).1
  rw [h]
  rw [if_pos (by norm_num [calculate_precip_threshold, thresholdIdx, select, summerIdx,
      winterIdx, monSW0, monSW1, listSum, mean, List.replicate]),
    if_pos (by norm_num [mean, listSum, List.replicate])]
  rfl

/-- C9: with the precipitation array and hemisphere flag fixed (hence
the same branch of the threshold rule), a larger mean temperature never
yields a smaller aridity threshold. -/
theorem thresholdMonotone (p t1 t2 : List ℚ) (s : Bool) (h : mean t1 ≤ mean t2) :
    calculate_precip_threshold p t1 s ≤ calculate_precip_threshold p t2 s := by
  unfold calculate_precip_threshold thresholdIdx
  split_ifs <;> linarith

/-- Witness for C9 at concrete records. -/
theorem thresholdMonotone_witness :
    calculate_precip_threshold (List.replicate 12 0) (List.replicate 12 0) false ≤
      calculate_precip_threshold (List.replicate 12 0) (List.replicate 12 1) false :=
  thresholdMonotone _ _ _ false (by norm_num [mean, listSum, List.replicate])

/-- C10: for either hemisphere the summer and winter index lists
partition the month indices 0–11, the summer and winter precipitation
sums add up to the annual total, and (for non-negative precipitation)
the winter-wet and summer-wet threshold branches can never both hold. -/
theorem seasonPartition (p : List ℚ) (s : Bool) (hp : p.length = 12)
    (hnn : ∀ x ∈ p, 0 ≤ x) :
    (summerIdx s ++ winterIdx s).Perm (List.range 12) ∧
    listSum (select p (summerIdx s)) + listSum (select p (winterIdx s)) = listSum p ∧
    ¬ (listSum (select p (winterIdx s)) > 7/10 * listSum p ∧
       listSum (select p (summerIdx s)) > 7/10 * listSum p) := by
  obtain ⟨a, b, c, d, e, f, g, q, i, j, k, m, rfl⟩ := exists_twelve p hp
  simp only [List.mem_cons, List.not_mem_nil, or_false, forall_eq_or_imp, forall_eq] at hnn
  obtain ⟨ha, hb, hc, hd, he, hf, hg, hq, hi, hj, hk, hm⟩ := hnn
  refine ⟨?_, ?_, ?_⟩
  · cases s <;> decide
  · cases s <;>
      (simp [select, summerIdx, winterIdx, monSW0, monSW1, listSum]; ring)
  · rintro ⟨h1, h2⟩
    have hsel0 : select [a, b, c, d, e, f, g, q, i, j, k, m] monSW0 = [d, e, f, g, q, i] := rfl
    have hsel1 : select [a, b, c, d, e, f, g, q, i, j, k, m] monSW1 = [a, b, c, j, k, m] := rfl
    cases s <;>
      (simp only [summerIdx, winterIdx, if_true, if_false, Bool.false_eq_true,
        hsel0, hsel1, listSum, List.sum_cons, List.sum_nil] at h1 h2 <;> linarith)

/-- Witness for C10 at a concrete record. -/
theorem seasonPartition_witness :
    (summerIdx false ++ winterIdx false).Perm (List.range 12) ∧
    listSum (select (List.replicate 12 1) (summerIdx false)) +
        listSum (select (List.replicate 12 1) (winterIdx false))
      = listSum (List.replicate 12 1) ∧
    ¬ (listSum (select (List.replicate 12 1) (winterIdx false)) >
        7/10 * listSum (List.replicate 12 1) ∧
       listSum (select (List.replicate 12 1) (summerIdx false)) >
        7/10 * listSum (List.replicate 12 1)) :=
  seasonPartition _ false (by simp) (by simp)

end Koppen
